import Mathlib

/-!
# Verification of the estate-tax engine of `ai_wealth_transfer_app.py`

Shallow embedding of the pure computational core of the application:
the progressive estate-tax computation `calculate_estate_tax` and the
three what-if simulators (`simulate_insurance_strategy`,
`simulate_gift_strategy`, `simulate_diversified_strategy`).

Numbers are modelled by exact rationals (`ℚ`); Python's `int(...)`
conversion is truncation toward zero (`pyInt`), and Python's `round`
builtin is round-half-to-even (`pyRound`, and `round2` for the
two-decimal form `round(x, 2)`).  Counts of family members are naturals,
amounts are rationals, and the values Python returns as `int` are `ℤ`.
-/

namespace WealthApp

/-- Python `int(x)` on a number: truncation toward zero. -/
def pyInt (x : ℚ) : ℤ :=
  if 0 ≤ x then ⌊x⌋ else ⌈x⌉

/-- Python `round(x)` (one-argument form): round half to even. -/
def pyRound (x : ℚ) : ℤ :=
  if x - ⌊x⌋ < 1/2 then ⌊x⌋
  else if 1/2 < x - ⌊x⌋ then ⌊x⌋ + 1
  else if ⌊x⌋ % 2 = 0 then ⌊x⌋ else ⌊x⌋ + 1

/-- Python `round(x, 2)`: round half to even at the second decimal. -/
def round2 (x : ℚ) : ℚ :=
  (pyRound (x * 100) : ℚ) / 100

/-! ## Constants (unit: 万) — lines 16–29 of the source -/

def EXEMPT_AMOUNT : ℚ := 1333
def FUNERAL_EXPENSE : ℚ := 138
def SPOUSE_DEDUCTION_VALUE : ℚ := 553
def ADULT_CHILD_DEDUCTION : ℚ := 56
def PARENTS_DEDUCTION : ℚ := 138
def DISABLED_DEDUCTION : ℚ := 693
def OTHER_DEPENDENTS_DEDUCTION : ℚ := 56

/-- The 2025 Taiwan progressive bracket table `(upper bound, rate)`;
`none` stands for the unbounded last bracket (`float('inf')`). -/
def TAX_BRACKETS : List (Option ℚ × ℚ) :=
  [(some 5621, 1/10), (some 11242, 3/20), (none, 1/5)]

/-- The deduction total of `calculate_estate_tax` (source lines 40–47). -/
def compute_deductions (spouse_deduction : ℚ)
    (adult_children other_dependents disabled_people parents : ℕ) : ℚ :=
  spouse_deduction +
  FUNERAL_EXPENSE +
  ((disabled_people : ℚ) * DISABLED_DEDUCTION) +
  ((adult_children : ℚ) * ADULT_CHILD_DEDUCTION) +
  ((other_dependents : ℚ) * OTHER_DEPENDENTS_DEDUCTION) +
  ((parents : ℚ) * PARENTS_DEDUCTION)

/-- One iteration of the bracket-walk loop of `calculate_estate_tax`
(source lines 54–58).  The state is `(tax_due, previous_bracket)`,
where `previous_bracket = none` stands for `float('inf')`
(`taxable_amount > inf` is false, so such an iteration does nothing). -/
def bracketStep (taxable_amount : ℚ) (st : ℚ × Option ℚ) (br : Option ℚ × ℚ) :
    ℚ × Option ℚ :=
  match st.2 with
  | none => st
  | some prev =>
      if prev < taxable_amount then
        let upper := match br.1 with
          | none => taxable_amount
          | some b => min taxable_amount b
        (st.1 + (upper - prev) * br.2, br.1)
      else st

/-- The whole bracket-walk loop: `tax_due` accumulated over `TAX_BRACKETS`
starting from `tax_due = 0`, `previous_bracket = 0`. -/
def run_tax_brackets (taxable_amount : ℚ) : ℚ :=
  (TAX_BRACKETS.foldl (bracketStep taxable_amount) (0, some 0)).1

/-- `calculate_estate_tax` (source lines 35–59).
Returns `(taxable_amount, tax_due, deductions)`; the first two are the
Python `int`s the source returns, the third the deduction total. -/
def calculate_estate_tax (total_assets spouse_deduction : ℚ)
    (adult_children other_dependents disabled_people parents : ℕ) :
    ℤ × ℤ × ℚ :=
  let deductions := compute_deductions spouse_deduction
    adult_children other_dependents disabled_people parents
  if total_assets < EXEMPT_AMOUNT + deductions then
    (0, 0, deductions)
  else
    let taxable_amount : ℤ := pyInt (max 0 (total_assets - EXEMPT_AMOUNT - deductions))
    let tax_due : ℚ := run_tax_brackets (taxable_amount : ℚ)
    (taxable_amount, pyInt (round2 tax_due), deductions)

/-! ## Strategy simulators (source lines 72–155) -/

/-- Result record of `simulate_insurance_strategy`: the fields of the three
dictionaries the source builds (baseline, claim-not-taxed, claim-taxed). -/
structure InsuranceResult where
  original_total_assets : ℚ
  tax_no_insurance : ℤ
  net_no_insurance : ℚ
  claim_amount : ℤ
  tax_new : ℤ
  net_not_taxed : ℤ
  effect_not_taxed : ℚ
  tax_effective : ℤ
  net_taxed : ℤ
  effect_taxed : ℚ
  deriving DecidableEq, Repr

/-- `simulate_insurance_strategy` (source lines 72–106). -/
def simulate_insurance_strategy (total_assets spouse_deduction : ℚ)
    (adult_children other_dependents disabled_people parents : ℕ)
    ( premium_ratio premium : ℚ) : InsuranceResult :=
  let tax_no_insurance :=
    (calculate_estate_tax total_assets spouse_deduction
      adult_children other_dependents disabled_people parents).2.1
  let net_no_insurance := total_assets - (tax_no_insurance : ℚ)
  let claim_amount := pyRound (premium * premium_ratio)
  let new_total_assets := total_assets - premium
  let tax_new :=
    (calculate_estate_tax new_total_assets spouse_deduction
      adult_children other_dependents disabled_people parents).2.1
  let net_not_taxed := pyRound ((new_total_assets - (tax_new : ℚ)) + (claim_amount : ℚ))
  let effect_not_taxed := (net_not_taxed : ℚ) - net_no_insurance
  let effective_estate := total_assets - premium + (claim_amount : ℚ)
  let tax_effective :=
    (calculate_estate_tax effective_estate spouse_deduction
      adult_children other_dependents disabled_people parents).2.1
  let net_taxed := pyRound (effective_estate - (tax_effective : ℚ))
  let effect_taxed := (net_taxed : ℚ) - net_no_insurance
  ⟨total_assets, tax_no_insurance, net_no_insurance, claim_amount, tax_new,
    net_not_taxed, effect_not_taxed, tax_effective, net_taxed, effect_taxed⟩

/-- Result record of `simulate_gift_strategy`: the fields of the
dictionaries the source builds (baseline, after-gift, effect). -/
structure GiftResult where
  original_total_assets : ℚ
  tax_original : ℤ
  net_original : ℚ
  simulated_total_assets : ℚ
  tax_sim : ℤ
  total_gift : ℚ
  net_after : ℤ
  gift_years : ℕ
  effect : ℚ
  deriving DecidableEq, Repr

/-- `simulate_gift_strategy` (source lines 108–137). -/
def simulate_gift_strategy (total_assets spouse_deduction : ℚ)
    (adult_children other_dependents disabled_people parents : ℕ)
    (years : ℕ) : GiftResult :=
  let annual_gift_exemption : ℚ := 244
  let total_gift := (years : ℚ) * annual_gift_exemption
  let simulated_total_assets := max (total_assets - total_gift) 0
  let tax_sim :=
    (calculate_estate_tax simulated_total_assets spouse_deduction
      adult_children other_dependents disabled_people parents).2.1
  let net_after := pyRound ((simulated_total_assets - (tax_sim : ℚ)) + total_gift)
  let tax_original :=
    (calculate_estate_tax total_assets spouse_deduction
      adult_children other_dependents disabled_people parents).2.1
  let net_original := total_assets - (tax_original : ℚ)
  let effect := (net_after : ℚ) - net_original
  ⟨total_assets, tax_original, net_original, simulated_total_assets, tax_sim,
    total_gift, net_after, years, effect⟩

/-- Result record of `simulate_diversified_strategy`. -/
structure DiversifiedResult where
  tax_due : ℚ
  simulated_tax_due : ℤ
  saved : ℚ
  percent_saved : ℚ
  deriving DecidableEq, Repr

/-- `simulate_diversified_strategy` (source lines 139–155).
`percent_saved` is `0` when `tax_due` is falsy (i.e. zero). -/
def simulate_diversified_strategy (tax_due : ℚ) : DiversifiedResult :=
  let tax_factor : ℚ := 9/10
  let simulated_tax_due := pyRound (tax_due * tax_factor)
  let saved := tax_due - (simulated_tax_due : ℚ)
  let percent_saved := if tax_due = 0 then 0 else round2 ((saved / tax_due) * 100)
  ⟨tax_due, simulated_tax_due, saved, percent_saved⟩

/-- Direct single-formula evaluation of the progressive schedule, written
from the spec's words for the refinement comparison with the bracket walk:
10% up to 5621, 15% on the part between 5621 and 11242, 20% above 11242. -/
def spec_direct_tax (t : ℚ) : ℚ :=
  if t ≤ 5621 then t * (1/10)
  else if t ≤ 11242 then 5621 * (1/10) + (t - 5621) * (3/20)
  else 5621 * (1/10) + (11242 - 5621) * (3/20) + (t - 11242) * (1/5)

/-! ## Helper lemmas about the rounding primitives -/

lemma pyInt_of_nonneg {x : ℚ} (hx : 0 ≤ x) : pyInt x = ⌊x⌋ := if_pos hx

lemma pyRound_intCast (k : ℤ) : pyRound (k : ℚ) = k := by
  unfold pyRound
  rw [Int.floor_intCast]
  rw [if_pos (by norm_num)]

lemma pyRound_eq_of_eq_intCast {x : ℚ} {k : ℤ} (h : x = (k : ℚ)) : pyRound x = k := by
  rw [h, pyRound_intCast]

lemma round2_of_mul_hundred_int {x : ℚ} {m : ℤ} (h : x * 100 = (m : ℚ)) :
    round2 x = x := by
  unfold round2
  rw [pyRound_eq_of_eq_intCast h, ← h]
  field_simp

lemma pyRound_mono {x y : ℚ} (h : x ≤ y) : pyRound x ≤ pyRound y := by
  unfold pyRound
  rcases lt_or_le ⌊x⌋ ⌊y⌋ with hf | hf
  · have h1 : ⌊x⌋ + 1 ≤ ⌊y⌋ := hf
    split_ifs <;> omega
  · have hfe2 : ⌊x⌋ ≤ ⌊y⌋ := Int.floor_le_floor h
    have hq : ⌊x⌋ = ⌊y⌋ := le_antisymm hfe2 hf
    rw [hq] at *
    have hr : x - ⌊y⌋ ≤ y - ⌊y⌋ := by linarith
    split_ifs <;> first | omega | linarith

/-! ## Helper lemmas about the direct formula and the bracket walk -/

lemma run_eq_direct (t : ℚ) (ht : 0 ≤ t) : run_tax_brackets t = spec_direct_tax t := by
  unfold run_tax_brackets TAX_BRACKETS
  dsimp only [List.foldl, bracketStep]
  rcases le_or_lt t 5621 with h1 | h1
  · rcases eq_or_lt_of_le ht with h0 | h0
    · rw [if_neg (show ¬ (0:ℚ) < t by rw [← h0]; exact lt_irrefl 0)]
      dsimp only
      rw [if_neg (show ¬ (0:ℚ) < t by rw [← h0]; exact lt_irrefl 0)]
      dsimp only
      rw [if_neg (show ¬ (0:ℚ) < t by rw [← h0]; exact lt_irrefl 0)]
      rw [spec_direct_tax, if_pos h1, ← h0]
      norm_num
    · rw [if_pos h0]
      dsimp only
      rw [if_neg (show ¬ (5621:ℚ) < t from not_lt.mpr h1)]
      dsimp only
      rw [if_neg (show ¬ (5621:ℚ) < t from not_lt.mpr h1)]
      rw [spec_direct_tax, if_pos h1, min_eq_left h1]
      ring
  · rcases le_or_lt t 11242 with h2 | h2
    · rw [if_pos (show (0:ℚ) < t by linarith)]
      dsimp only
      rw [if_pos h1]
      dsimp only
      rw [if_neg (show ¬ (11242:ℚ) < t from not_lt.mpr h2)]
      rw [spec_direct_tax, if_neg (not_le.mpr h1), if_pos h2,
        min_eq_right (le_of_lt h1), min_eq_left h2]
      ring
    · rw [if_pos (show (0:ℚ) < t by linarith)]
      dsimp only
      rw [if_pos h1]
      dsimp only
      rw [if_pos h2]
      rw [spec_direct_tax, if_neg (not_le.mpr h1), if_neg (not_le.mpr h2),
        min_eq_right (le_of_lt h1), min_eq_right (le_of_lt h2)]
      ring

lemma spec_direct_tax_nonneg {t : ℚ} (ht : 0 ≤ t) : 0 ≤ spec_direct_tax t := by
  unfold spec_direct_tax
  split_ifs <;> linarith

lemma spec_direct_tax_mono {x y : ℚ} (h : x ≤ y) :
    spec_direct_tax x ≤ spec_direct_tax y := by
  unfold spec_direct_tax
  split_ifs <;> linarith

lemma spec_direct_tax_int (k : ℤ) :
    ∃ m : ℤ, spec_direct_tax (k : ℚ) = (m : ℚ) * (1/20) := by
  unfold spec_direct_tax
  split_ifs
  · exact ⟨2 * k, by push_cast; ring⟩
  · exact ⟨3 * k - 5621, by push_cast; ring⟩
  · exact ⟨4 * k - 16863, by push_cast; ring⟩

/-! ## Helper lemmas about `calculate_estate_tax` -/

lemma calc_deductions (ta sd : ℚ) (ac od dp p : ℕ) :
    (calculate_estate_tax ta sd ac od dp p).2.2 = compute_deductions sd ac od dp p := by
  unfold calculate_estate_tax
  by_cases h : ta < EXEMPT_AMOUNT + compute_deductions sd ac od dp p
  · rw [if_pos h]
  · rw [if_neg h]

lemma calc_taxable_nonneg (ta sd : ℚ) (ac od dp p : ℕ) :
    0 ≤ (calculate_estate_tax ta sd ac od dp p).1 := by
  unfold calculate_estate_tax
  by_cases h : ta < EXEMPT_AMOUNT + compute_deductions sd ac od dp p
  · rw [if_pos h]
  · rw [if_neg h]
    dsimp only
    rw [pyInt_of_nonneg (le_max_left 0 _)]
    exact Int.floor_nonneg.mpr (le_max_left 0 _)

lemma calc_tax_eq_floor (ta sd : ℚ) (ac od dp p : ℕ) :
    (calculate_estate_tax ta sd ac od dp p).2.1 =
      ⌊spec_direct_tax ((calculate_estate_tax ta sd ac od dp p).1 : ℚ)⌋ := by
  unfold calculate_estate_tax
  by_cases h : ta < EXEMPT_AMOUNT + compute_deductions sd ac od dp p
  · rw [if_pos h]
    norm_num [spec_direct_tax]
  · rw [if_neg h]
    dsimp only
    have ht : (0:ℤ) ≤ pyInt (max 0 (ta - EXEMPT_AMOUNT - compute_deductions sd ac od dp p)) := by
      rw [pyInt_of_nonneg (le_max_left 0 _)]
      exact Int.floor_nonneg.mpr (le_max_left 0 _)
    have htq : (0:ℚ) ≤
        ((pyInt (max 0 (ta - EXEMPT_AMOUNT - compute_deductions sd ac od dp p)) : ℤ) : ℚ) := by
      exact_mod_cast ht
    rw [run_eq_direct _ htq]
    obtain ⟨m, hm⟩ :=
      spec_direct_tax_int (pyInt (max 0 (ta - EXEMPT_AMOUNT - compute_deductions sd ac od dp p)))
    have h100 :
        spec_direct_tax
          ((pyInt (max 0 (ta - EXEMPT_AMOUNT - compute_deductions sd ac od dp p)) : ℤ) : ℚ) * 100 =
          ((5 * m : ℤ) : ℚ) := by
      rw [hm]; push_cast; ring
    rw [round2_of_mul_hundred_int h100]
    rw [pyInt_of_nonneg (spec_direct_tax_nonneg htq)]

/-! ## Concrete evaluations -/

lemma calc_5000 : calculate_estate_tax 5000 0 0 0 0 0 = (3529, 352, 138) := by
  unfold calculate_estate_tax compute_deductions
  norm_num [EXEMPT_AMOUNT, FUNERAL_EXPENSE, DISABLED_DEDUCTION, ADULT_CHILD_DEDUCTION,
    OTHER_DEPENDENTS_DEDUCTION, PARENTS_DEDUCTION, pyInt, max_def, run_tax_brackets,
    TAX_BRACKETS, bracketStep, List.foldl, round2, pyRound]

lemma calc_30000 : calculate_estate_tax 30000 0 0 0 0 0 = (28529, 4862, 138) := by
  unfold calculate_estate_tax compute_deductions
  norm_num [EXEMPT_AMOUNT, FUNERAL_EXPENSE, DISABLED_DEDUCTION, ADULT_CHILD_DEDUCTION,
    OTHER_DEPENDENTS_DEDUCTION, PARENTS_DEDUCTION, pyInt, max_def, run_tax_brackets,
    TAX_BRACKETS, bracketStep, List.foldl, round2, pyRound]

/-! ## The claims -/

/-- C1: for every input with `total_assets ≥ exempt_amount + deductions`, the
returned `taxable_amount` is `max(0, total_assets − 1333 − deductions)`
truncated to an integer, and for every `total_assets ≥ 0` it is
`max(0, total_assets − exempt_amount − deductions)` truncated to an integer. -/
theorem claim1_taxable_formula (ta sd : ℚ) (ac od dp p : ℕ) :
    (EXEMPT_AMOUNT + (calculate_estate_tax ta sd ac od dp p).2.2 ≤ ta →
      (calculate_estate_tax ta sd ac od dp p).1 =
        pyInt (max 0 (ta - 1333 - (calculate_estate_tax ta sd ac od dp p).2.2))) ∧
    (0 ≤ ta →
      (calculate_estate_tax ta sd ac od dp p).1 =
        pyInt (max 0 (ta - EXEMPT_AMOUNT - (calculate_estate_tax ta sd ac od dp p).2.2))) := by
  rw [calc_deductions]
  constructor
  · intro h
    unfold calculate_estate_tax
    rw [if_neg (not_lt.mpr h)]
    simp only [EXEMPT_AMOUNT]
  · intro h0
    by_cases hth : ta < EXEMPT_AMOUNT + compute_deductions sd ac od dp p
    · unfold calculate_estate_tax
      rw [if_pos hth]
      rw [max_eq_left (show ta - EXEMPT_AMOUNT - compute_deductions sd ac od dp p ≤ 0 by linarith)]
      rw [pyInt_of_nonneg le_rfl]
      norm_num
    · unfold calculate_estate_tax
      rw [if_neg hth]

/-- C1 witness: the first part of `claim1_taxable_formula` instantiated at
`total_assets = 5000` with no spouse and no dependents. -/
theorem claim1_taxable_formula_witness :
    EXEMPT_AMOUNT + (calculate_estate_tax 5000 0 0 0 0 0).2.2 ≤ 5000 ∧
    (calculate_estate_tax 5000 0 0 0 0 0).1 =
      pyInt (max 0 (5000 - 1333 - (calculate_estate_tax 5000 0 0 0 0 0).2.2)) :=
  ⟨by rw [calc_5000]; norm_num [EXEMPT_AMOUNT],
   (claim1_taxable_formula 5000 0 0 0 0 0).1 (by rw [calc_5000]; norm_num [EXEMPT_AMOUNT])⟩

/-- C2: the `total_deductions` returned by `calculate_estate_tax` is
`spouse_amount + 138 + disabled×693 + children×56 + others×56 + parents×138`,
where `spouse_amount` is `553` when a spouse is present and `0` otherwise. -/
theorem claim2_total_deductions (has_spouse : Bool) (ta : ℚ) (ac od dp p : ℕ) :
    (calculate_estate_tax ta (if has_spouse then SPOUSE_DEDUCTION_VALUE else 0)
        ac od dp p).2.2 =
      (if has_spouse then (553:ℚ) else 0) + 138 + (dp : ℚ) * 693 + (ac : ℚ) * 56 +
        (od : ℚ) * 56 + (p : ℚ) * 138 := by
  rw [calc_deductions]
  unfold compute_deductions
  cases has_spouse <;>
    simp [SPOUSE_DEDUCTION_VALUE, FUNERAL_EXPENSE, DISABLED_DEDUCTION,
      ADULT_CHILD_DEDUCTION, OTHER_DEPENDENTS_DEDUCTION, PARENTS_DEDUCTION]

/-- C3: when `total_assets < exempt_amount + deductions`, the function returns
`(0, 0, deductions)` with the fully computed deduction total — the zero-result
policy, not an error. -/
theorem claim3_zero_result (ta sd : ℚ) (ac od dp p : ℕ)
    (h : ta < EXEMPT_AMOUNT + (calculate_estate_tax ta sd ac od dp p).2.2) :
    calculate_estate_tax ta sd ac od dp p =
      (0, 0, sd + FUNERAL_EXPENSE + (dp : ℚ) * DISABLED_DEDUCTION +
        (ac : ℚ) * ADULT_CHILD_DEDUCTION + (od : ℚ) * OTHER_DEPENDENTS_DEDUCTION +
        (p : ℚ) * PARENTS_DEDUCTION) := by
  rw [calc_deductions] at h
  unfold calculate_estate_tax
  rw [if_pos h]
  unfold compute_deductions
  rfl

/-- C3 witness: `claim3_zero_result` instantiated at `total_assets = 100`
with no spouse and no dependents. -/
theorem claim3_zero_result_witness :
    (100:ℚ) < EXEMPT_AMOUNT + (calculate_estate_tax 100 0 0 0 0 0).2.2 ∧
    calculate_estate_tax 100 0 0 0 0 0 =
      (0, 0, (0:ℚ) + FUNERAL_EXPENSE + ((0:ℕ) : ℚ) * DISABLED_DEDUCTION +
        ((0:ℕ) : ℚ) * ADULT_CHILD_DEDUCTION + ((0:ℕ) : ℚ) * OTHER_DEPENDENTS_DEDUCTION +
        ((0:ℕ) : ℚ) * PARENTS_DEDUCTION) :=
  ⟨by
    rw [calc_deductions]
    norm_num [compute_deductions, EXEMPT_AMOUNT, FUNERAL_EXPENSE, DISABLED_DEDUCTION,
      ADULT_CHILD_DEDUCTION, OTHER_DEPENDENTS_DEDUCTION, PARENTS_DEDUCTION],
   claim3_zero_result 100 0 0 0 0 0 (by
    rw [calc_deductions]
    norm_num [compute_deductions, EXEMPT_AMOUNT, FUNERAL_EXPENSE, DISABLED_DEDUCTION,
      ADULT_CHILD_DEDUCTION, OTHER_DEPENDENTS_DEDUCTION, PARENTS_DEDUCTION])⟩

/-- C4: for every non-negative integer `taxable_amount`, the bracket-walk loop
computes the same tax as the direct single-formula evaluation of the
progressive schedule (no double-counting, no gaps, boundaries included). -/
theorem claim4_bracket_walk (t : ℕ) :
    run_tax_brackets (t : ℚ) = spec_direct_tax (t : ℚ) :=
  run_eq_direct (t : ℚ) (by positivity)

/-- C5: with identical family facts, a larger returned `taxable_amount` never
produces a strictly smaller returned `tax_due`. -/
theorem claim5_tax_monotone (ta1 ta2 sd : ℚ) (ac od dp p : ℕ)
    (h : (calculate_estate_tax ta1 sd ac od dp p).1 ≤
      (calculate_estate_tax ta2 sd ac od dp p).1) :
    (calculate_estate_tax ta1 sd ac od dp p).2.1 ≤
      (calculate_estate_tax ta2 sd ac od dp p).2.1 := by
  rw [calc_tax_eq_floor, calc_tax_eq_floor]
  exact Int.floor_le_floor (spec_direct_tax_mono (by exact_mod_cast h))

/-- C5 witness: `claim5_tax_monotone` instantiated at
`total_assets = 5000` and `total_assets = 30000` with identical facts. -/
theorem claim5_tax_monotone_witness :
    (calculate_estate_tax 5000 0 0 0 0 0).1 ≤ (calculate_estate_tax 30000 0 0 0 0 0).1 ∧
    (calculate_estate_tax 5000 0 0 0 0 0).2.1 ≤ (calculate_estate_tax 30000 0 0 0 0 0).2.1 :=
  ⟨by rw [calc_5000, calc_30000]; norm_num,
   claim5_tax_monotone 5000 30000 0 0 0 0 0 (by rw [calc_5000, calc_30000]; norm_num)⟩

/-- C6 counterexample: at `total_assets = 5000` with no spouse and no
dependents the returned `tax_due` is the integer `352`, not `352.9` as the
claim states. -/
theorem claim6_counterexample :
    ((calculate_estate_tax 5000 0 0 0 0 0).2.1 : ℚ) ≠ 352.9 ∧
    (calculate_estate_tax 5000 0 0 0 0 0).2.1 = 352 := by
  rw [calc_5000]
  norm_num

/-- C6 amended: at `total_assets = 5000` with no spouse and no dependents the
function returns `deductions = 138`, `taxable_amount = 3529`, and
`tax_due = 352`, the integer truncation of the exact bracket tax
`3529 × 0.10 = 352.9` computed by the loop. -/
theorem claim6_amended :
    calculate_estate_tax 5000 0 0 0 0 0 = (3529, 352, 138) ∧
    run_tax_brackets 3529 = 352.9 := by
  refine ⟨calc_5000, ?_⟩
  norm_num [run_tax_brackets, TAX_BRACKETS, bracketStep, List.foldl]

/-- C7 counterexample: with `years = 0` the reported net after gifting does
not equal the baseline net for a fractional estate (`total_assets = 1/2`,
where rounding loses half a 万) nor for a negative one (`total_assets = −1`,
where `max(·, 0)` changes the simulated estate), so the effect is nonzero. -/
theorem claim7_counterexample :
    (simulate_gift_strategy (1/2) 0 0 0 0 0 0).effect ≠ 0 ∧
    (simulate_gift_strategy (-1) 0 0 0 0 0 0).effect ≠ 0 := by
  constructor <;>
  · norm_num [simulate_gift_strategy, calculate_estate_tax, compute_deductions,
      EXEMPT_AMOUNT, FUNERAL_EXPENSE, DISABLED_DEDUCTION, ADULT_CHILD_DEDUCTION,
      OTHER_DEPENDENTS_DEDUCTION, PARENTS_DEDUCTION, pyRound, pyInt, max_def]

/-- C7 amended: for every non-negative integer `total_assets`,
`simulate_gift_strategy` with `years = 0` equals the baseline: the total gift
is `0`, the simulated assets equal `total_assets`, the simulated tax equals
the baseline tax, the net after gifting equals the baseline net, and the
reported effect is `0`. -/
theorem claim7_amended (n : ℤ) (hn : 0 ≤ n) (sd : ℚ) (ac od dp p : ℕ) :
    (simulate_gift_strategy (n : ℚ) sd ac od dp p 0).total_gift = 0 ∧
    (simulate_gift_strategy (n : ℚ) sd ac od dp p 0).simulated_total_assets = (n : ℚ) ∧
    (simulate_gift_strategy (n : ℚ) sd ac od dp p 0).tax_sim =
      (simulate_gift_strategy (n : ℚ) sd ac od dp p 0).tax_original ∧
    ((simulate_gift_strategy (n : ℚ) sd ac od dp p 0).net_after : ℚ) =
      (n : ℚ) - ((simulate_gift_strategy (n : ℚ) sd ac od dp p 0).tax_original : ℚ) ∧
    (simulate_gift_strategy (n : ℚ) sd ac od dp p 0).effect = 0 := by
  have hq : (0:ℚ) ≤ (n:ℚ) := by exact_mod_cast hn
  unfold simulate_gift_strategy
  simp only [Nat.cast_zero, zero_mul, sub_zero, add_zero, max_eq_left hq]
  have hcast : (n:ℚ) - ((calculate_estate_tax (n:ℚ) sd ac od dp p).2.1 : ℚ) =
      ((n - (calculate_estate_tax (n:ℚ) sd ac od dp p).2.1 : ℤ) : ℚ) := by
    push_cast; ring
  refine ⟨trivial, trivial, trivial, ?_, ?_⟩
  · rw [pyRound_eq_of_eq_intCast hcast]
    push_cast; ring
  · rw [pyRound_eq_of_eq_intCast hcast]
    push_cast; ring

/-- C7 witness: `claim7_amended` instantiated at `total_assets = 5000`. -/
theorem claim7_amended_witness :
    (simulate_gift_strategy ((5000:ℤ) : ℚ) 0 0 0 0 0 0).effect = 0 :=
  (claim7_amended 5000 (by norm_num) 0 0 0 0 0).2.2.2.2

/-- C8 counterexample: at `tax_due = 352` the simulated tax is the rounded
integer `317`, not `352 × 0.90 = 316.8`, and the saved percentage is the
two-decimal `9.94`, not the exact `saved / tax_due × 100`. -/
theorem claim8_counterexample :
    ((simulate_diversified_strategy 352).simulated_tax_due : ℚ) ≠ 352 * (9/10) ∧
    (simulate_diversified_strategy 352).percent_saved ≠
      ((352:ℚ) - 352 * (9/10)) / 352 * 100 := by
  norm_num [simulate_diversified_strategy, pyRound, round2]

/-- C8 amended: `simulate_diversified_strategy` is total: for every `tax_due`
the simulated tax is `tax_due × 0.90` rounded to the nearest integer, the
saving is `tax_due` minus that, and the saved percentage is
`saved / tax_due × 100` rounded to two decimals — except that it is `0` when
`tax_due = 0`, with no division performed. -/
theorem claim8_amended (td : ℚ) :
    (simulate_diversified_strategy td).simulated_tax_due = pyRound (td * (9/10)) ∧
    (simulate_diversified_strategy td).saved = td - (pyRound (td * (9/10)) : ℚ) ∧
    (simulate_diversified_strategy td).percent_saved =
      (if td = 0 then 0 else
        round2 ((td - (pyRound (td * (9/10)) : ℚ)) / td * 100)) := by
  unfold simulate_diversified_strategy
  exact ⟨rfl, rfl, rfl⟩

/-- C9 counterexample: at `premium = 1`, `premium_ratio = 3/2` the computed
claim amount is the rounded integer `2`, not `premium × claim_ratio = 1.5`. -/
theorem claim9_counterexample :
    ((simulate_insurance_strategy 5000 0 0 0 0 0 (3/2) 1).claim_amount : ℚ) ≠ 1 * (3/2) := by
  norm_num [simulate_insurance_strategy, pyRound]

/-- C9 amended: `simulate_insurance_strategy` computes
`claim_amount = round(premium × claim_ratio)`, the "not taxed" net as the
rounded `(total_assets − premium − tax on the reduced estate) + claim_amount`,
the "taxed" net as the rounded
`(total_assets − premium + claim_amount) − tax on that enlarged estate`, and
each effect as that net minus the baseline net
`total_assets − tax on total_assets`. -/
theorem claim9_amended (ta sd : ℚ) (ac od dp p : ℕ) ( premium_ratio premium : ℚ) :
    simulate_insurance_strategy ta sd ac od dp p premium_ratio premium =
      ⟨ta,
       (calculate_estate_tax ta sd ac od dp p).2.1,
       ta - ((calculate_estate_tax ta sd ac od dp p).2.1 : ℚ),
       pyRound (premium * premium_ratio),
       (calculate_estate_tax (ta - premium) sd ac od dp p).2.1,
       pyRound ((ta - premium - ((calculate_estate_tax (ta - premium) sd ac od dp p).2.1 : ℚ)) +
         (pyRound (premium * premium_ratio) : ℚ)),
       (pyRound ((ta - premium - ((calculate_estate_tax (ta - premium) sd ac od dp p).2.1 : ℚ)) +
         (pyRound (premium * premium_ratio) : ℚ)) : ℚ) -
         (ta - ((calculate_estate_tax ta sd ac od dp p).2.1 : ℚ)),
       (calculate_estate_tax (ta - premium + (pyRound (premium * premium_ratio) : ℚ))
         sd ac od dp p).2.1,
       pyRound ((ta - premium + (pyRound (premium * premium_ratio) : ℚ)) -
         ((calculate_estate_tax (ta - premium + (pyRound (premium * premium_ratio) : ℚ))
           sd ac od dp p).2.1 : ℚ)),
       (pyRound ((ta - premium + (pyRound (premium * premium_ratio) : ℚ)) -
         ((calculate_estate_tax (ta - premium + (pyRound (premium * premium_ratio) : ℚ))
           sd ac od dp p).2.1 : ℚ)) : ℚ) -
         (ta - ((calculate_estate_tax ta sd ac od dp p).2.1 : ℚ))⟩ := by
  unfold simulate_insurance_strategy
  rfl

/-- C10: the returned `tax_due` is a non-negative integer: the exact bracket
sum is a multiple of `1/20` (i.e. of 0.05), and the final
`int(round(tax_due, 2))` step returns the floor of that exact sum. -/
theorem claim10_tax_floor (ta sd : ℚ) (ac od dp p : ℕ) :
    0 ≤ (calculate_estate_tax ta sd ac od dp p).2.1 ∧
    (∃ m : ℤ, run_tax_brackets ((calculate_estate_tax ta sd ac od dp p).1 : ℚ) =
      (m : ℚ) * (1/20)) ∧
    (calculate_estate_tax ta sd ac od dp p).2.1 =
      ⌊run_tax_brackets ((calculate_estate_tax ta sd ac od dp p).1 : ℚ)⌋ := by
  have h1 := calc_taxable_nonneg ta sd ac od dp p
  have h1q : (0:ℚ) ≤ ((calculate_estate_tax ta sd ac od dp p).1 : ℚ) := by exact_mod_cast h1
  have h2 := calc_tax_eq_floor ta sd ac od dp p
  have h3 := run_eq_direct _ h1q
  refine ⟨?_, ?_, ?_⟩
  · rw [h2]
    exact Int.floor_nonneg.mpr (spec_direct_tax_nonneg h1q)
  · rw [h3]
    exact spec_direct_tax_int _
  · rw [h3, h2]

end WealthApp
